import Mathlib

/-!
Verification development for the survey-cleaning dashboard
(`src/Mental_Health_Dashboard.py`).

The file shallow-embeds the two components the specification isolates:
the normalization pipeline `load_and_clean_data` (lines 11-108 of the
source) and the interactive filter layer (lines 171-187), together with
the aggregate helpers the claims mention (treatment rate by gender,
lines 326-331; percent-Yes by country, lines 629-650).

Modelling conventions:
* a table cell is `Option String`; a missing cell (pandas `NaN`) is `none`;
* pandas `astype(str)` renders a missing cell as the literal string
  `"nan"` (`pandasStr`);
* `to_numeric(errors="coerce")` is modelled on integer-valued cells
  (survey ages are integers); an unparseable cell becomes `none`;
* `to_datetime` is an opaque parameter `toDatetime : String → Option String`
  of the pipeline — no claim depends on date semantics, only on the field
  taking part in row equality for deduplication;
* `astype(bool)` on an object column applies Python truthiness cell-wise:
  `True`/`False` stay, a non-empty string is `true`, the empty string is
  `false`, and `NaN` is `true` (Python `bool(float("nan"))` is `True`);
* the record carries exactly the columns the claims touch; the source
  table has further categorical columns that no claim mentions;
* the row-local casts of source lines 57-91 are applied per row before
  the age-range row filter of line 54; they commute with that filter
  because the filter reads only `Age`, which they do not change.
-/

/-- One raw survey row as read from the CSV: every field is an optional
textual cell (`none` = missing / NaN). -/
structure RawRecord where
  age : Option String
  timestamp : Option String
  gender : Option String
  treatment : Option String
  country : Option String
  no_employees : Option String
  remote_work : Option String
  tech_company : Option String
  seek_help : Option String
  self_employed : Option String
  family_history : Option String
  mental_vs_physical : Option String
deriving DecidableEq

/-- pandas `astype(str)`: a missing cell renders as the string "nan". -/
def pandasStr : Option String → String
  | none => "nan"
  | some s => s

/-- Python `str.strip()` on the character list of a string: drop leading
and trailing whitespace. -/
def trimChars (l : List Char) : List Char :=
  ((l.dropWhile Char.isWhitespace).reverse.dropWhile Char.isWhitespace).reverse

/-- Python `str.strip()`. -/
def str_strip (s : String) : String :=
  String.mk (trimChars s.data)

/-- Python `str.lower()` (the survey tokens are ASCII). -/
def str_lower (s : String) : String :=
  String.mk (s.data.map Char.toLower)

/-- Parse a non-empty all-digit character list as a natural number. -/
def parseNatDigits (l : List Char) : Option Nat :=
  if l.isEmpty then none
  else if l.all Char.isDigit then
    some (l.foldl (fun acc c => 10 * acc + (c.toNat - 48)) 0)
  else none

/-- Parse an optionally signed integer literal. -/
def parseIntDigits : List Char → Option Int
  | '-' :: ds => (parseNatDigits ds).map (fun n => -(n : Int))
  | '+' :: ds => (parseNatDigits ds).map (fun n => (n : Int))
  | ds => (parseNatDigits ds).map (fun n => (n : Int))

/-- `pd.to_numeric(col, errors="coerce")` (source line 15), restricted to
integer-valued cells (survey ages are integers); an unparseable or
missing cell becomes `none`. -/
def to_numeric : Option String → Option Int
  | none => none
  | some s => parseIntDigits (trimChars s.data)

/-- Source lines 21-25. -/
def female_terms : List String :=
  ["female (cis)", "female (cis)\t", "fem", "f", "femal",
   "woman", "femail", "cis female", "femake",
   "female (cis)", "queer/she/they", "cis-female/femme"]

/-- Source lines 27-32. -/
def male_terms : List String :=
  ["msle", "guy (-ish) ^_^", "man", "mal", "make",
   "male (cis)", "male", "m", "male,m",
   "male-ish", "malr", "maile", "mail", "cis male",
   "something kinda male?"]

/-- Source lines 34-40. -/
def other_terms : List String :=
  ["male leaning androgynous", "male leaning androgyous", "neuter",
   "trans-female", "unsure what that really means", "trans woman", "p",
   "genderqueer", "a little about you", "non-binary", "nah", "all",
   "enby", "female (trans)", "queer", "fluid", "androgyne", "agender",
   "ostensibly male, unsure what that really means"]

/-- `Series.replace(terms, repl)`: exact full-string list replacement. -/
def listReplace (terms : List String) (repl v : String) : String :=
  if v ∈ terms then repl else v

/-- The generic missing-value tokens of source line 48. -/
def missing_tokens : List String :=
  ["", "N/A", "n/a", "Na", "Don\x27t know", "Maybe", "Some of them"]

/-- `df.replace(missing_tokens, np.nan)` (source lines 47-51), on one cell. -/
def replaceMissing : Option String → Option String
  | none => none
  | some s => if s ∈ missing_tokens then none else some s

/-- The full treatment of the `Gender` column: `astype(str).str.lower()
.str.strip()` (line 19), the three term-list replacements (lines 42-44),
the generic missing-value replacement (line 47), and the final
`str.strip()` pass over object columns (line 61).  The later
`astype("category")` does not change values. -/
def genderField (v : Option String) : Option String :=
  let g0 := str_strip (str_lower (pandasStr v))
  let g1 := listReplace female_terms "female" g0
  let g2 := listReplace male_terms "male" g1
  let g3 := listReplace other_terms "other" g2
  (replaceMissing (some g3)).map str_strip

/-- The `treatment` column: missing-value replacement (line 47), then
`replace({"Yes": True, "No": False})` and `astype(bool)` (lines 57-58).
The bool cast happens before the line-61 strip, which skips non-object
columns. -/
def treatmentField (v : Option String) : Bool :=
  match replaceMissing v with
  | none => true
  | some s =>
    if s = "Yes" then true
    else if s = "No" then false
    else s != ""

/-- A column of `bool_cols` (lines 85-91): missing-value replacement
(line 47), the line-61 strip, then `astype("bool")` truthiness. -/
def boolField (v : Option String) : Bool :=
  match (replaceMissing v).map str_strip with
  | none => true
  | some s => s != ""

/-- A plain categorical column (`Country`, `mental_vs_physical`, ...):
missing-value replacement (line 47) and the line-61 strip; the
`astype("category")` cast of lines 80-82 does not change values. -/
def catField (v : Option String) : Option String :=
  (replaceMissing v).map str_strip

/-- The `no_employees` column: missing-value replacement (line 47), the
line-61 strip, then `astype(str).str.strip().str.lower()` and the
replacement of the two corrupted date-like tokens (lines 64-70). -/
def noEmployeesField (v : Option String) : Option String :=
  let s := str_lower (str_strip (pandasStr ((replaceMissing v).map str_strip)))
  if s ∈ ["jun-25", "01-may"] then none else some s

/-- One cleaned row, before duplicate removal and before the derived
`company_size` column is added (the state of the frame at source
line 94). -/
structure CleanedRow where
  age : Option Int
  timestamp : Option String
  gender : Option String
  treatment : Bool
  country : Option String
  no_employees : Option String
  remote_work : Bool
  tech_company : Bool
  seek_help : Bool
  self_employed : Bool
  family_history : Bool
  mental_vs_physical : Option String
deriving DecidableEq

/-- A canonical record: a cleaned row plus the derived `company_size`
column (source line 106). -/
structure CanonicalRecord extends CleanedRow where
  company_size : Option Int
deriving DecidableEq

/-- All row-local cleaning steps of `load_and_clean_data`, applied to one
raw row. -/
def cleanRow (toDatetime : String → Option String) (r : RawRecord) : CleanedRow :=
  { age := to_numeric r.age
    timestamp := r.timestamp.bind toDatetime
    gender := genderField r.gender
    treatment := treatmentField r.treatment
    country := catField r.country
    no_employees := noEmployeesField r.no_employees
    remote_work := boolField r.remote_work
    tech_company := boolField r.tech_company
    seek_help := boolField r.seek_help
    self_employed := boolField r.self_employed
    family_history := boolField r.family_history
    mental_vs_physical := catField r.mental_vs_physical }

/-- The age-range row filter `(df["Age"] >= 18) & (df["Age"] <= 100)`
(source line 54); a NaN age compares false on both sides. -/
def ageOk : Option Int → Bool
  | some a => decide (18 ≤ a) && decide (a ≤ 100)
  | none => false

/-- `drop_duplicates` keeps the first occurrence of each row value;
`seen` accumulates the values already emitted. -/
def dropDuplicatesAux [DecidableEq α] (seen : List α) : List α → List α
  | [] => []
  | x :: xs =>
    if x ∈ seen then dropDuplicatesAux seen xs
    else x :: dropDuplicatesAux (x :: seen) xs

/-- `df.drop_duplicates()` (source line 94). -/
def dropDuplicates [DecidableEq α] (l : List α) : List α :=
  dropDuplicatesAux [] l

/-- The bracket-to-midpoint table of source lines 97-105, in source
order; the capitalised key is unreachable after the line-68 lowering but
is kept for fidelity. -/
def size_map : List (String × Int) :=
  [("1-5", 3), ("6-25", 15), ("26-100", 63), ("100-500", 300),
   ("500-1000", 750), ("more than 1000", 1200), ("More than 1000", 1200)]

/-- `df["no_employees"].map(size_map)` (source line 106) on one cell:
a missing bracket or a bracket absent from the table becomes `none`. -/
def deriveCompanySize (v : Option String) : Option Int :=
  v.bind (fun s => size_map.lookup s)

/-- Attach the derived `company_size` column to a cleaned row. -/
def addCompanySize (c : CleanedRow) : CanonicalRecord :=
  { toCleanedRow := c, company_size := deriveCompanySize c.no_employees }

/-- The normalization pipeline `load_and_clean_data` (source lines
11-108) minus the file read: row-local cleaning, the age-range row
filter, duplicate removal, and the derived `company_size` column. -/
def load_and_clean_data (toDatetime : String → Option String)
    (table : List RawRecord) : List CanonicalRecord :=
  let cleaned := table.map (cleanRow toDatetime)
  let kept := cleaned.filter (fun c => ageOk c.age)
  (dropDuplicates kept).map addCompanySize

/-! ## Filter layer (source lines 171-187) -/

/-- The sidebar "Remote work" radio choice (source lines 151-152). -/
inductive RemoteChoice
  | All
  | Remote
  | OnSite
deriving DecidableEq

/-- The sidebar "Company type" radio choice (source lines 155-156). -/
inductive TechChoice
  | All
  | TechOnly
  | NonTechOnly
deriving DecidableEq

/-- One interaction's filter configuration, assembled from the sidebar
widgets (source lines 130-165). -/
structure FilterSpec where
  genders : List String
  age_lo : Int
  age_hi : Int
  countries : List String
  remote : RemoteChoice
  tech : TechChoice

/-- `filtered_df["Gender"].isin(selected_gender)` (source line 174):
a NaN gender is never a member. -/
def genderIsin (gs : List String) (r : CanonicalRecord) : Bool :=
  match r.gender with
  | some g => gs.contains g
  | none => false

/-- `filtered_df["Age"].between(lo, hi)` (source line 175), inclusive. -/
def ageBetween (lo hi : Int) (r : CanonicalRecord) : Bool :=
  match r.age with
  | some a => decide (lo ≤ a) && decide (a ≤ hi)
  | none => false

/-- `filtered_df["Country"].isin(selected_countries)` (source line 179). -/
def countryIsin (cs : List String) (r : CanonicalRecord) : Bool :=
  match r.country with
  | some c => cs.contains c
  | none => false

/-- The filter application of source lines 171-187: the unconditional
gender/age filter, then the country filter only when the selected
country list is non-empty, then the remote-work and company-type
filters only when the corresponding radio choice is not "All". -/
def filtered_df (spec : FilterSpec) (rows : List CanonicalRecord) :
    List CanonicalRecord :=
  let r1 := rows.filter (fun r =>
    genderIsin spec.genders r && ageBetween spec.age_lo spec.age_hi r)
  let r2 := if spec.countries.isEmpty then r1
            else r1.filter (countryIsin spec.countries)
  let r3 := if spec.remote = RemoteChoice.All then r2
            else r2.filter (fun r =>
              r.remote_work == decide (spec.remote = RemoteChoice.Remote))
  if spec.tech = TechChoice.All then r3
  else r3.filter (fun r =>
    r.tech_company == decide (spec.tech = TechChoice.TechOnly))

/-! ## Aggregate helpers -/

/-- The mean of a boolean column, as pandas computes it: the share of
`True` among the values, and NaN (`none`) over an empty column. -/
def boolMean (bs : List Bool) : Option ℚ :=
  if bs.isEmpty then none
  else some ((bs.countP id : ℚ) / (bs.length : ℚ))

/-- `filtered_df.groupby("Gender", observed=False)["treatment"].mean()`
(source lines 326-331).  `Gender` is categorical, so with
`observed=False` every declared category forms a group — including
categories with zero matching rows — while NaN genders are dropped by
`groupby`; the mean of a zero-row group is NaN (`none`). -/
def treatment_rate_by_gender (categories : List String)
    (rows : List CanonicalRecord) : List (String × Option ℚ) :=
  categories.map (fun g =>
    (g, boolMean ((rows.filter (fun r => r.gender == some g)).map
      (fun r => r.treatment))))

/-- The non-null (Country, mental_vs_physical) pairs of the filtered
frame — `dropna(subset=["Country", "mental_vs_physical"])` of source
lines 630-632. -/
def mvpPairs (rows : List CanonicalRecord) : List (String × String) :=
  rows.filterMap (fun r =>
    match r.country, r.mental_vs_physical with
    | some c, some m => some (c, m)
    | _, _ => none)

/-- The percent-Yes-by-country computation of source lines 629-650.
`Country` and `mental_vs_physical` are categorical columns (line 82)
and the groupbys at lines 632 and 639 pass no `observed` kwarg, which
in the pandas era the code pins at line 328 defaults to
`observed=False`: the `.size()` group keys are the full product of
the two declared category lists, zero counts included.  Hence, per
declared country, `N` sums the counts over the declared
`mental_vs_physical` categories; the "Yes" row of the line-648
left-merge exists (count possibly zero) for every country whenever
"Yes" is a declared category, and otherwise the `fillna` sets `Yes`
to 0; and `Pct_Yes = 100 * Yes / N` is the NaN division 0/0 — here
`none` — exactly for a country with zero counted rows.  pandas orders
groups by category; this embedding uses the declared-list order, a
permutation that does not change the set of entries. -/
def perc (countryCats mvpCats : List String) (rows : List CanonicalRecord) :
    List (String × Option ℚ) :=
  let pairs := mvpPairs rows
  countryCats.map (fun c =>
    let n := (pairs.filter (fun p => p.1 == c && mvpCats.contains p.2)).length
    let yes := if mvpCats.contains "Yes"
      then (pairs.filter (fun p => p.1 == c && p.2 == "Yes")).length
      else 0
    (c, if n = 0 then none else some (100 * (yes : ℚ) / (n : ℚ))))

/-! ## Column-presence model (source lines 11-16, 80-91) -/

/-- A raw frame with its column list: a cell of row `r` in column `c` is
`r c`, meaningful when `c` is a member of `cols`. -/
structure RawTable where
  cols : List String
  rows : List (String → Option String)

/-- A guarded column read: the source touches the optional categorical
and boolean columns only under `if c in df.columns` (lines 80-82,
89-91), so an absent optional column contributes only missing cells. -/
def getCol (t : RawTable) (row : String → Option String) (c : String) :
    Option String :=
  if c ∈ t.cols then row c else none

/-- Assemble one `RawRecord` from a row of the frame.  The five columns
the pipeline reads unconditionally are read directly; the guarded
columns go through `getCol`. -/
def toRawRecord (t : RawTable) (row : String → Option String) : RawRecord :=
  { age := row "Age"
    timestamp := row "Timestamp"
    gender := row "Gender"
    treatment := row "treatment"
    country := getCol t row "Country"
    no_employees := row "no_employees"
    remote_work := getCol t row "remote_work"
    tech_company := getCol t row "tech_company"
    seek_help := getCol t row "seek_help"
    self_employed := getCol t row "self_employed"
    family_history := getCol t row "family_history"
    mental_vs_physical := getCol t row "mental_vs_physical" }

/-- `true` exactly on a successful result. -/
def exceptIsOk : Except String (List CanonicalRecord) → Bool
  | Except.ok _ => true
  | Except.error _ => false

/-- `load_and_clean_data` with the column accesses made explicit: the
pipeline reads `df["Age"]` (line 15), `df["Timestamp"]` (line 16),
`df["Gender"]` (line 19), `df["treatment"]` (line 57) and
`df["no_employees"]` (line 64) unconditionally, so a frame missing one
of those five columns raises a `KeyError` before any result is
returned; every other column access in the function is guarded by
`if c in df.columns`. -/
def load_and_clean_data_checked (toDatetime : String → Option String)
    (t : RawTable) : Except String (List CanonicalRecord) :=
  if "Age" ∉ t.cols then Except.error "KeyError: Age"
  else if "Timestamp" ∉ t.cols then Except.error "KeyError: Timestamp"
  else if "Gender" ∉ t.cols then Except.error "KeyError: Gender"
  else if "treatment" ∉ t.cols then Except.error "KeyError: treatment"
  else if "no_employees" ∉ t.cols then Except.error "KeyError: no_employees"
  else Except.ok (load_and_clean_data toDatetime (t.rows.map (toRawRecord t)))

/-- The row predicate the four filter stages of `filtered_df` jointly
implement, stated in the nesting order the stage composition produces
(last stage outermost). -/
def specPred (spec : FilterSpec) (r : CanonicalRecord) : Bool :=
  (decide (spec.tech = TechChoice.All) ||
    r.tech_company == decide (spec.tech = TechChoice.TechOnly)) &&
  ((decide (spec.remote = RemoteChoice.All) ||
    r.remote_work == decide (spec.remote = RemoteChoice.Remote)) &&
  ((spec.countries.isEmpty || countryIsin spec.countries r) &&
  (genderIsin spec.genders r && ageBetween spec.age_lo spec.age_hi r)))

/-! ## Concrete rows and frames used to instantiate claims -/

/-- A raw row whose boolean-typed cells carry the exact token "No"
(and a missing `treatment` cell), with a valid age. -/
def c1Raw : RawRecord :=
  { age := some "30", timestamp := none, gender := some "male",
    treatment := none, country := some "United States",
    no_employees := some "6-25", remote_work := some "No",
    tech_company := some "Yes", seek_help := some "No",
    self_employed := some "No", family_history := some "No",
    mental_vs_physical := some "Yes" }

/-- A raw row whose gender cell is free text outside every term-list
and outside the generic missing-value set. -/
def c2Raw : RawRecord :=
  { age := some "30", timestamp := none, gender := some "Xyzzy",
    treatment := some "Yes", country := some "United States",
    no_employees := some "6-25", remote_work := some "Yes",
    tech_company := some "Yes", seek_help := some "Yes",
    self_employed := some "No", family_history := some "Yes",
    mental_vs_physical := some "Yes" }

/-- A raw row with a valid age. -/
def c3Raw : RawRecord :=
  { age := some "29", timestamp := none, gender := some "Female (cis)",
    treatment := some "Yes", country := some "United Kingdom",
    no_employees := some "6-25", remote_work := some "No",
    tech_company := some "Yes", seek_help := some "No",
    self_employed := some "No", family_history := some "Yes",
    mental_vs_physical := some "Yes" }

/-- A canonical record with a counted (country, mental_vs_physical)
pair. -/
def c6Rec : CanonicalRecord :=
  { age := some 30, timestamp := none, gender := some "female",
    treatment := true, country := some "United States",
    no_employees := some "6-25", remote_work := false,
    tech_company := true, seek_help := false, self_employed := false,
    family_history := false, mental_vs_physical := some "Yes",
    company_size := some 15 }

/-- A raw row with a missing `no_employees` cell and a valid age. -/
def c7Raw : RawRecord :=
  { age := some "40", timestamp := none, gender := some "female (cis)",
    treatment := some "No", country := some "Canada",
    no_employees := none, remote_work := some "Yes",
    tech_company := some "Yes", seek_help := some "Yes",
    self_employed := some "No", family_history := some "No",
    mental_vs_physical := some "No" }

/-- A raw frame that has the five unconditionally-read columns but no
`Country` column. -/
def c10Table : RawTable :=
  { cols := ["Age", "Timestamp", "Gender", "treatment", "no_employees"],
    rows := [fun c =>
      if c = "Age" then some "30"
      else if c = "Gender" then some "woman"
      else if c = "treatment" then some "Yes"
      else if c = "no_employees" then some "1-5"
      else none] }

/-! ## Helper lemmas -/

/-- The three gender term-lists do not overlap: no male term is a
female term. -/
lemma male_terms_not_female : ∀ x ∈ male_terms, x ∉ female_terms := by
  decide

/-- No other-list term is a female term. -/
lemma other_terms_not_female : ∀ x ∈ other_terms, x ∉ female_terms := by
  decide

/-- No other-list term is a male term. -/
lemma other_terms_not_male : ∀ x ∈ other_terms, x ∉ male_terms := by
  decide

lemma mem_dropDuplicatesAux [DecidableEq α] (x : α) :
    ∀ (seen l : List α), x ∈ dropDuplicatesAux seen l ↔ x ∈ l ∧ x ∉ seen := by
  intro seen l
  induction l generalizing seen with
  | nil => simp [dropDuplicatesAux]
  | cons a l ih =>
    by_cases ha : a ∈ seen
    · rw [dropDuplicatesAux, if_pos ha, ih]
      constructor
      · rintro ⟨hl, hs⟩
        exact ⟨List.mem_cons_of_mem _ hl, hs⟩
      · rintro ⟨hl, hs⟩
        rcases List.mem_cons.mp hl with h | h
        · exact absurd (h ▸ ha) hs
        · exact ⟨h, hs⟩
    · rw [dropDuplicatesAux, if_neg ha]
      constructor
      · intro hx
        rcases List.mem_cons.mp hx with h | h
        · exact ⟨List.mem_cons.mpr (Or.inl h), h ▸ ha⟩
        · rcases (ih _).mp h with ⟨hl, hs⟩
          exact ⟨List.mem_cons_of_mem _ hl,
            fun hx2 => hs (List.mem_cons_of_mem _ hx2)⟩
      · rintro ⟨hl, hs⟩
        by_cases hxa : x = a
        · exact List.mem_cons.mpr (Or.inl hxa)
        · rcases List.mem_cons.mp hl with h | h
          · exact absurd h hxa
          · refine List.mem_cons_of_mem _ ((ih _).mpr ⟨h, ?_⟩)
            intro hx2
            rcases List.mem_cons.mp hx2 with h2 | h2
            · exact hxa h2
            · exact hs h2

/-- `drop_duplicates` neither adds nor fully removes a row value. -/
lemma mem_dropDuplicates [DecidableEq α] (x : α) (l : List α) :
    x ∈ dropDuplicates l ↔ x ∈ l := by
  rw [dropDuplicates, mem_dropDuplicatesAux]
  simp

/-! ## Claim theorems -/

/-- C4: for every raw gender string that, after lower-casing and
trimming, equals a term of the female, male, or other term-list,
normalization yields exactly "female", "male", or "other"
respectively. -/
theorem C4_term_list_normalization (s : String) :
    (str_strip (str_lower s) ∈ female_terms →
      genderField (some s) = some "female") ∧
    (str_strip (str_lower s) ∈ male_terms →
      genderField (some s) = some "male") ∧
    (str_strip (str_lower s) ∈ other_terms →
      genderField (some s) = some "other") := by
  refine ⟨fun h => ?_, fun h => ?_, fun h => ?_⟩
  · simp only [genderField, pandasStr, listReplace]
    rw [if_pos h]
    decide
  · simp only [genderField, pandasStr, listReplace]
    rw [if_neg (male_terms_not_female _ h), if_pos h]
    decide
  · simp only [genderField, pandasStr, listReplace]
    rw [if_neg (other_terms_not_female _ h), if_neg (other_terms_not_male _ h),
      if_pos h]
    decide

theorem C4_witness :
    genderField (some "Woman ") = some "female" ∧
    genderField (some " M") = some "male" ∧
    genderField (some "Queer") = some "other" :=
  ⟨(C4_term_list_normalization "Woman ").1 (by decide),
   (C4_term_list_normalization " M").2.1 (by decide),
   (C4_term_list_normalization "Queer").2.2 (by decide)⟩

/-- C1: the claim states that `treatment` and the five boolean fields
are true exactly on the raw token "Yes" and false on every other raw
value, missing included.  The code contradicts this: the five
`bool_cols` are cast with `astype("bool")` without any Yes/No
replacement, so the raw token "No" — a non-empty string — becomes
`true`, and a missing `treatment` cell (`NaN`) also becomes `true`.
This theorem evaluates the pipeline at the failing row. -/
theorem C1_bool_cast_truthy :
    (load_and_clean_data (fun _ => none) [c1Raw]).map
      (fun c => (c.family_history, c.remote_work, c.seek_help,
        c.self_employed, c.treatment)) =
      [(true, true, true, true, true)] := by
  decide

/-- C2 counterexample: the claim states that a raw gender matching no
term-list has a null canonical gender, so that every canonical gender
is female, male, other, or null.  The code instead lets unmatched
free text survive in lower-cased trimmed form: the raw gender "Xyzzy"
ends as the canonical value "xyzzy". -/
theorem C2_gender_residual_cex :
    (str_strip (str_lower "Xyzzy") ∉ female_terms ∧
     str_strip (str_lower "Xyzzy") ∉ male_terms ∧
     str_strip (str_lower "Xyzzy") ∉ other_terms ∧
     str_strip (str_lower "Xyzzy") ∉ missing_tokens) ∧
    (load_and_clean_data (fun _ => none) [c2Raw]).map
      (fun c => c.gender) = [some "xyzzy"] := by
  decide

/-- C2 (amended): a raw gender value that, after case-folding and
trimming, matches none of the three term-lists becomes null exactly
when its folded form is itself one of the generic missing-value
tokens; otherwise it survives as its case-folded trimmed free text. -/
theorem C2_gender_residual (s : String)
    (hf : str_strip (str_lower s) ∉ female_terms)
    (hm : str_strip (str_lower s) ∉ male_terms)
    (ho : str_strip (str_lower s) ∉ other_terms) :
    genderField (some s) =
      if str_strip (str_lower s) ∈ missing_tokens then none
      else some (str_strip (str_strip (str_lower s))) := by
  simp only [genderField, pandasStr, listReplace]
  rw [if_neg hf, if_neg hm, if_neg ho]
  by_cases hmem : str_strip (str_lower s) ∈ missing_tokens
  · rw [if_pos hmem]
    simp [replaceMissing, hmem]
  · rw [if_neg hmem]
    simp [replaceMissing, hmem]

theorem C2_witness : genderField (some "Xyz") = some "xyz" :=
  (C2_gender_residual "Xyz" (by decide) (by decide) (by decide)).trans
    (by decide)

/-- C5: every normalized bracket key present in the bracket table maps
to the documented midpoint (1-5 to 3, 6-25 to 15, 26-100 to 63,
100-500 to 300, 500-1000 to 750, more than 1000 to 1200), and a null
or unrecognized bracket yields a null company_size. -/
theorem C5_bracket_midpoints :
    (deriveCompanySize (some "1-5") = some 3 ∧
     deriveCompanySize (some "6-25") = some 15 ∧
     deriveCompanySize (some "26-100") = some 63 ∧
     deriveCompanySize (some "100-500") = some 300 ∧
     deriveCompanySize (some "500-1000") = some 750 ∧
     deriveCompanySize (some "more than 1000") = some 1200) ∧
    deriveCompanySize none = none ∧
    ∀ s : String, s ∉ size_map.map Prod.fst →
      deriveCompanySize (some s) = none := by
  refine ⟨by decide, rfl, fun s hs => ?_⟩
  simp only [size_map, List.map_cons, List.map_nil, List.mem_cons,
    List.not_mem_nil, or_false, not_or] at hs
  obtain ⟨h1, h2, h3, h4, h5, h6, h7⟩ := hs
  simp only [deriveCompanySize, Option.some_bind, size_map, List.lookup,
    beq_eq_false_iff_ne.mpr h1, beq_eq_false_iff_ne.mpr h2,
    beq_eq_false_iff_ne.mpr h3, beq_eq_false_iff_ne.mpr h4,
    beq_eq_false_iff_ne.mpr h5, beq_eq_false_iff_ne.mpr h6,
    beq_eq_false_iff_ne.mpr h7]

theorem C5_witness : deriveCompanySize (some "nan") = none :=
  C5_bracket_midpoints.2.2 "nan" (by decide)

/-- C7 counterexample: the claim states that a record with a missing
`no_employees` cell ends with a null canonical value, and that the
canonical value is always one of the six brackets or null.  The code
applies `astype(str)` before stripping, which renders the missing cell
as the literal string "nan": the canonical value is "nan", not null
and not a bracket (the derived company_size is null). -/
theorem C7_missing_bracket_cex :
    (load_and_clean_data (fun _ => none) [c7Raw]).map
      (fun c => (c.no_employees, c.company_size)) = [(some "nan", none)] ∧
    some "nan" ≠ (none : Option String) ∧
    "nan" ∉ ["1-5", "6-25", "26-100", "100-500", "500-1000",
      "more than 1000"] := by
  decide

/-- C7 (amended): each of the six brackets survives normalization
unchanged; the canonical `no_employees` is null exactly for a
non-sentinel raw token whose case-folded trimmed form is one of the
two corrupted date-like tokens; and a missing raw cell (like a
sentinel token) ends as the literal string "nan", never as null. -/
theorem C7_bracket_characterization :
    (∀ b ∈ ["1-5", "6-25", "26-100", "100-500", "500-1000",
        "more than 1000"], noEmployeesField (some b) = some b) ∧
    noEmployeesField none = some "nan" ∧
    ∀ v : Option String, noEmployeesField v = none ↔
      ∃ s, v = some s ∧ s ∉ missing_tokens ∧
        str_lower (str_strip (str_strip s)) ∈ ["jun-25", "01-may"] := by
  refine ⟨by decide, by decide, fun v => ?_⟩
  cases v with
  | none =>
    rw [show noEmployeesField none = some "nan" from by decide]
    simp
  | some s =>
    by_cases hs : s ∈ missing_tokens
    · have hnan : noEmployeesField (some s) = some "nan" := by
        simp only [noEmployeesField, replaceMissing]
        rw [if_pos hs]
        decide
      rw [hnan]
      simp [hs]
    · simp only [noEmployeesField, replaceMissing]
      rw [if_neg hs]
      simp only [Option.map_some', pandasStr]
      by_cases hc : str_lower (str_strip (str_strip s)) ∈ ["jun-25", "01-may"]
      · rw [if_pos hc]
        exact ⟨fun _ => ⟨s, rfl, hs, hc⟩, fun _ => rfl⟩
      · rw [if_neg hc]
        constructor
        · intro h
          exact absurd h (by simp)
        · rintro ⟨s2, hseq, hns, hmem⟩
          obtain rfl : s2 = s := (Option.some.inj hseq).symm
          exact absurd hmem hc

theorem C7_witness : noEmployeesField (some "6-25") = some "6-25" :=
  C7_bracket_characterization.1 "6-25" (by decide)

/-- C3: a row of the raw table yields a record in the canonical output
exactly when its coerced age lies in [18, 100]; a null (unparseable or
missing) age counts as outside the range and the row is dropped.
Duplicate removal collapses equal rows to one, so presence is stated
as value membership. -/
theorem C3_age_range_membership (toDatetime : String → Option String)
    (table : List RawRecord) (raw : RawRecord) (hmem : raw ∈ table) :
    ageOk (cleanRow toDatetime raw).age = true ↔
      ∃ cr ∈ load_and_clean_data toDatetime table,
        cr.toCleanedRow = cleanRow toDatetime raw := by
  simp only [load_and_clean_data]
  constructor
  · intro h
    refine ⟨addCompanySize (cleanRow toDatetime raw), ?_, rfl⟩
    apply List.mem_map_of_mem
    rw [mem_dropDuplicates]
    exact List.mem_filter.mpr ⟨List.mem_map_of_mem _ hmem, h⟩
  · rintro ⟨cr, hcr, heq⟩
    rcases List.mem_map.mp hcr with ⟨c, hc, rfl⟩
    rw [mem_dropDuplicates] at hc
    have hage := (List.mem_filter.mp hc).2
    have hceq : c = cleanRow toDatetime raw := heq
    rw [← hceq]
    exact hage

theorem C3_witness :
    ∃ cr ∈ load_and_clean_data (fun _ => none) [c3Raw],
      cr.toCleanedRow = cleanRow (fun _ => none) c3Raw :=
  (C3_age_range_membership (fun _ => none) [c3Raw] c3Raw
    (by decide)).mp (by decide)

/-- The staged filter application equals one pass of `List.filter` with
the combined row predicate. -/
lemma filtered_df_eq_filter (spec : FilterSpec) (rows : List CanonicalRecord) :
    filtered_df spec rows = rows.filter (specPred spec) := by
  unfold filtered_df specPred
  cases hC : spec.countries.isEmpty <;>
    by_cases hR : spec.remote = RemoteChoice.All <;>
      by_cases hT : spec.tech = TechChoice.All <;>
        simp [hC, hR, hT, List.filter_filter, Bool.and_assoc]

/-- C8: applying the filter twice with the same FilterSpec equals
applying it once. -/
theorem C8_filter_idempotent (spec : FilterSpec) (rows : List CanonicalRecord) :
    filtered_df spec (filtered_df spec rows) = filtered_df spec rows := by
  simp only [filtered_df_eq_filter, List.filter_filter, Bool.and_self]

/-- An empty gender selection matches no record. -/
lemma genderIsin_nil (r : CanonicalRecord) : genderIsin [] r = false := by
  cases hg : r.gender <;> simp [genderIsin, hg]

/-- C9: filtering with an empty `genders` set returns the empty result,
while filtering with an empty `countries` set applies no country
restriction — membership is determined by the gender, age, remote and
company-type conditions alone. -/
theorem C9_empty_sets_asymmetry :
    (∀ (rows : List CanonicalRecord) (lo hi : Int) (cs : List String)
        (rm : RemoteChoice) (tc : TechChoice),
      filtered_df ⟨[], lo, hi, cs, rm, tc⟩ rows = []) ∧
    (∀ (rows : List CanonicalRecord) (gs : List String) (lo hi : Int)
        (rm : RemoteChoice) (tc : TechChoice) (r : CanonicalRecord),
      r ∈ filtered_df ⟨gs, lo, hi, [], rm, tc⟩ rows ↔
        r ∈ rows ∧ genderIsin gs r = true ∧ ageBetween lo hi r = true ∧
          (rm = RemoteChoice.All ∨
            r.remote_work = decide (rm = RemoteChoice.Remote)) ∧
          (tc = TechChoice.All ∨
            r.tech_company = decide (tc = TechChoice.TechOnly))) := by
  constructor
  · intro rows lo hi cs rm tc
    rw [filtered_df_eq_filter]
    rw [List.filter_eq_nil_iff]
    intro a _
    simp [specPred, genderIsin_nil]
  · intro rows gs lo hi rm tc r
    rw [filtered_df_eq_filter, List.mem_filter]
    simp only [specPred, List.isEmpty_nil, Bool.true_or, Bool.and_eq_true,
      Bool.or_eq_true, decide_eq_true_eq, beq_iff_eq]
    tauto

/-- C6 counterexample: the claim states that a percentage aggregate
over a zero-row group returns 0.  With `observed=False` on the
categorical `Gender` column, a declared category with zero matching
rows forms a group whose mean is NaN (`none`), not 0. -/
theorem C6_zero_group_cex :
    treatment_rate_by_gender ["other"] [] = [("other", (none : Option ℚ))] ∧
    (none : Option ℚ) ≠ some 0 := by
  exact ⟨rfl, by simp⟩

/-- C6 (amended): a zero-row group never reaches the presentation
layer as 0 and never raises an exception — it surfaces as NaN: the
treatment-rate mean of a declared gender category with zero matching
rows is NaN (`none`), and a declared country with no counted
(Country, mental_vs_physical) row appears in the percent-Yes table
with a NaN percentage (the 0/0 division), not 0 and not absent. -/
theorem C6_zero_group_behavior :
    (∀ (cats : List String) (rows : List CanonicalRecord) (g : String),
      g ∈ cats → rows.filter (fun r => r.gender == some g) = [] →
        (g, (none : Option ℚ)) ∈ treatment_rate_by_gender cats rows) ∧
    (∀ (countryCats mvpCats : List String) (rows : List CanonicalRecord)
        (c : String), c ∈ countryCats →
      (mvpPairs rows).filter
        (fun p => p.1 == c && mvpCats.contains p.2) = [] →
        (c, (none : Option ℚ)) ∈ perc countryCats mvpCats rows) := by
  constructor
  · intro cats rows g hg hempty
    simp only [treatment_rate_by_gender]
    exact List.mem_map.mpr ⟨g, hg, by rw [hempty]; rfl⟩
  · intro countryCats mvpCats rows c hc hempty
    simp only [perc]
    exact List.mem_map.mpr ⟨c, hc, by rw [hempty]; rfl⟩

theorem C6_witness :
    (("other", (none : Option ℚ)) ∈ treatment_rate_by_gender ["other"] []) ∧
    (("Zed", (none : Option ℚ)) ∈
      perc ["United States", "Zed"] ["Yes", "No"] [c6Rec]) :=
  ⟨C6_zero_group_behavior.1 ["other"] [] "other" (by decide) rfl,
   C6_zero_group_behavior.2 ["United States", "Zed"] ["Yes", "No"] [c6Rec]
     "Zed" (by decide) (by decide)⟩

/-- C10 counterexample: the claim lists `Country` among the required
columns whose absence makes normalization fail.  In the code every
`Country` access inside `load_and_clean_data` is guarded by
`if c in df.columns`, so a frame without a `Country` column cleans
successfully; the failure would only surface later in the
presentation layer (line 159). -/
theorem C10_missing_country_cex :
    "Country" ∉ c10Table.cols ∧
    exceptIsOk (load_and_clean_data_checked (fun _ => none) c10Table) =
      true := by
  decide

/-- C10 (amended): a raw table missing any of the five columns the
pipeline reads unconditionally — Age, Timestamp, Gender, treatment,
no_employees — makes normalization fail with an error and no partial
canonical result; a missing Country column does not fail
normalization. -/
theorem C10_required_columns (toDatetime : String → Option String)
    (t : RawTable)
    (h : "Age" ∉ t.cols ∨ "Timestamp" ∉ t.cols ∨ "Gender" ∉ t.cols ∨
      "treatment" ∉ t.cols ∨ "no_employees" ∉ t.cols) :
    exceptIsOk (load_and_clean_data_checked toDatetime t) = false := by
  unfold load_and_clean_data_checked
  by_cases h1 : "Age" ∉ t.cols
  · rw [if_pos h1]; rfl
  · rw [if_neg h1]
    by_cases h2 : "Timestamp" ∉ t.cols
    · rw [if_pos h2]; rfl
    · rw [if_neg h2]
      by_cases h3 : "Gender" ∉ t.cols
      · rw [if_pos h3]; rfl
      · rw [if_neg h3]
        by_cases h4 : "treatment" ∉ t.cols
        · rw [if_pos h4]; rfl
        · rw [if_neg h4]
          by_cases h5 : "no_employees" ∉ t.cols
          · rw [if_pos h5]; rfl
          · rw [if_neg h5]
            exfalso
            tauto

theorem C10_witness :
    exceptIsOk (load_and_clean_data_checked (fun _ => none)
      { cols := [], rows := [] }) = false :=
  C10_required_columns (fun _ => none) { cols := [], rows := [] }
    (Or.inl (by decide))

